import Mathlib

/-!
Verification of the stream-bot webhook ingestion and credential lifecycle
subsystem.  The JavaScript sources (eventsub.js, user-auth.js, auth.js) are
shallowly embedded: JavaScript values become the inductive `JsVal`, property
access that can throw becomes `Except JsError`, and observable side effects
(console output, Socket.IO emissions, remote subscription creation, database
writes) become explicit `Effect` lists returned by the embedded functions.
External collaborators (the HMAC primitive from node:crypto, the axios HTTP
outcomes, the database outcome) are parameters of the embedded functions.
-/

set_option maxRecDepth 40000
set_option maxHeartbeats 1000000

namespace StreamBot

/-- Model of a JavaScript value as manipulated by the webhook code:
`undefined` is `undefined`, objects keep their fields as an insertion-ordered
association list (matching JSON.parse / JSON.stringify behaviour). -/
inductive JsVal where
  | undefined : JsVal
  | null : JsVal
  | bool (b : Bool) : JsVal
  | num (n : Int) : JsVal
  | str (s : String) : JsVal
  | obj (fields : List (String × JsVal)) : JsVal
  | arr (elems : List JsVal) : JsVal

/-- A thrown JavaScript error (the only kind the embedded code can raise is a
TypeError from accessing a property of `undefined` or `null`, or from calling
`.toString()` on them). -/
inductive JsError where
  | typeError (msg : String) : JsError

/-- JavaScript truthiness of a value. -/
def jsTruthy : JsVal → Bool
  | .undefined => false
  | .null => false
  | .bool b => b
  | .num n => n != 0
  | .str s => !s.isEmpty
  | .obj _ => true
  | .arr _ => true

/-- JavaScript `a || b`. -/
def jsOr (a b : JsVal) : JsVal :=
  if jsTruthy a then a else b

/-- Association-list lookup used for object property access. -/
def jsLookup : List (String × JsVal) → String → Option JsVal
  | [], _ => none
  | (k, v) :: rest, key => if k == key then some v else jsLookup rest key

/-- JavaScript property access `v[key]`: throws a TypeError on `undefined`
and `null`, yields the field (or `undefined`) on objects, and `undefined`
on primitives. -/
def jsGet : JsVal → String → Except JsError JsVal
  | .undefined, key => .error (.typeError ("Cannot read properties of undefined (reading " ++ key ++ ")"))
  | .null, key => .error (.typeError ("Cannot read properties of null (reading " ++ key ++ ")"))
  | .obj fields, key => .ok ((jsLookup fields key).getD .undefined)
  | _, _ => .ok .undefined

/-- Strict equality of a JavaScript value with a string literal, as used by
`switch` dispatch over `subscription.type`. -/
def jsIsStr : JsVal → String → Bool
  | .str s, t => s == t
  | _, _ => false

/-- The string a value becomes inside a template literal (`String(v)`). -/
def jsDisplay : JsVal → String
  | .undefined => "undefined"
  | .null => "null"
  | .bool b => if b then "true" else "false"
  | .num n => toString n
  | .str s => s
  | .obj _ => "[object Object]"
  | .arr _ => ""

/-- JavaScript `.toString()`: throws on `undefined` and `null`. -/
def jsToString : JsVal → Except JsError String
  | .undefined => .error (.typeError "Cannot read properties of undefined (reading toString)")
  | .null => .error (.typeError "Cannot read properties of null (reading toString)")
  | v => .ok (jsDisplay v)

/-- JSON string escaping for the characters the embedded bodies can contain
(quote, backslash, tab, newline, carriage return). -/
def jsonEscapeChar (c : Char) : String :=
  if c = '"' then "\\\""
  else if c = '\\' then "\\\\"
  else if c = '\n' then "\\n"
  else if c = '\t' then "\\t"
  else if c = '\r' then "\\r"
  else String.singleton c

/-- JSON quoting of a string. -/
def jsonQuote (s : String) : String :=
  "\"" ++ String.join (s.data.map jsonEscapeChar) ++ "\""

mutual

/-- `JSON.stringify` as used in verifyTwitchSignature and in the
registration log line: canonical, whitespace-free serialization that keeps
object-key insertion order. -/
def jsonStringify : JsVal → String
  | .undefined => "undefined"
  | .null => "null"
  | .bool b => if b then "true" else "false"
  | .num n => toString n
  | .str s => jsonQuote s
  | .obj fields => "\x7b" ++ jsonStringifyFields fields ++ "\x7d"
  | .arr elems => "[" ++ jsonStringifyElems elems ++ "]"

/-- Serialize the fields of an object, comma separated. -/
def jsonStringifyFields : List (String × JsVal) → String
  | [] => ""
  | [(k, v)] => jsonQuote k ++ ":" ++ jsonStringify v
  | (k, v) :: rest => jsonQuote k ++ ":" ++ jsonStringify v ++ "," ++ jsonStringifyFields rest

/-- Serialize the elements of an array, comma separated. -/
def jsonStringifyElems : List JsVal → String
  | [] => ""
  | [v] => jsonStringify v
  | v :: rest => jsonStringify v ++ "," ++ jsonStringifyElems rest

end

/-- JSON whitespace. -/
def isJsonWs (c : Char) : Bool :=
  c = ' ' || c = '\t' || c = '\n' || c = '\r'

/-- Drop leading JSON whitespace. -/
def skipWs : List Char → List Char
  | [] => []
  | c :: rest => if isJsonWs c then skipWs rest else c :: rest

/-- Decode the character content of a JSON string up to the closing quote,
handling the basic escapes. -/
def jsonStringChars : List Char → Option (String × List Char)
  | [] => none
  | '"' :: rest => some ("", rest)
  | '\\' :: e :: rest =>
    let dec : Char :=
      if e = 'n' then '\n' else if e = 't' then '\t' else if e = 'r' then '\r' else e
    match jsonStringChars rest with
    | some (s, r) => some (String.singleton dec ++ s, r)
    | none => none
  | '\\' :: [] => none
  | c :: rest =>
    match jsonStringChars rest with
    | some (s, r) => some (String.singleton c ++ s, r)
    | none => none

/-- Digits of a number literal folded into a natural. -/
def jsonDigits (acc : Nat) : List Char → Nat × List Char
  | [] => (acc, [])
  | c :: rest =>
    if c.isDigit then jsonDigits (acc * 10 + (c.toNat - 48)) rest
    else (acc, c :: rest)

/-- The opening-brace character, written by code point. -/
def lbraceChar : Char := Char.ofNat 123

/-- The closing-brace character, written by code point. -/
def rbraceChar : Char := Char.ofNat 125

/-- Consume an expected literal tail (such as `rue` after `t`). -/
def dropExact : List Char → List Char → Option (List Char)
  | [], rest => some rest
  | c :: cs, r :: rs => if r = c then dropExact cs rs else none
  | _ :: _, [] => none

mutual

/-- Fuelled JSON value parser: the model of `JSON.parse`, which express's
json body middleware applies to the raw request bytes to produce `req.body`. -/
def jsonParseVal : Nat → List Char → Option (JsVal × List Char)
  | 0, _ => none
  | fuel + 1, input =>
    match skipWs input with
    | [] => none
    | c :: rest =>
      if c = '"' then
        match jsonStringChars rest with
        | some (s, r) => some (.str s, r)
        | none => none
      else if c = lbraceChar then
        match skipWs rest with
        | [] => none
        | c2 :: r2 =>
          if c2 = rbraceChar then some (.obj [], r2)
          else jsonParseFields fuel (c2 :: r2)
      else if c = '[' then
        match skipWs rest with
        | [] => none
        | c2 :: r2 =>
          if c2 = ']' then some (.arr [], r2)
          else
            match jsonParseElems fuel (c2 :: r2) with
            | some (vs, r3) => some (.arr vs, r3)
            | none => none
      else if c = 't' then
        match dropExact "rue".data rest with
        | some r => some (.bool true, r)
        | none => none
      else if c = 'f' then
        match dropExact "alse".data rest with
        | some r => some (.bool false, r)
        | none => none
      else if c = 'n' then
        match dropExact "ull".data rest with
        | some r => some (.null, r)
        | none => none
      else if c = '-' then
        match rest with
        | d :: r =>
          if d.isDigit then
            let p := jsonDigits (d.toNat - 48) r
            some (.num (-(p.1 : Int)), p.2)
          else none
        | [] => none
      else if c.isDigit then
        let p := jsonDigits (c.toNat - 48) rest
        some (.num (p.1 : Int), p.2)
      else none

/-- Parse the fields of an object, positioned at the first key. -/
def jsonParseFields : Nat → List Char → Option (JsVal × List Char)
  | 0, _ => none
  | fuel + 1, input =>
    match skipWs input with
    | [] => none
    | c :: rest =>
      if c = '"' then
        match jsonStringChars rest with
        | some (k, r1) =>
          match skipWs r1 with
          | [] => none
          | c2 :: r2 =>
            if c2 = ':' then
              match jsonParseVal fuel r2 with
              | some (v, r3) =>
                match skipWs r3 with
                | [] => none
                | c3 :: r4 =>
                  if c3 = ',' then
                    match jsonParseFields fuel r4 with
                    | some (.obj fs, r5) => some (.obj ((k, v) :: fs), r5)
                    | _ => none
                  else if c3 = rbraceChar then some (.obj [(k, v)], r4)
                  else none
              | none => none
            else none
        | none => none
      else none

/-- Parse the elements of an array, positioned at the first element. -/
def jsonParseElems : Nat → List Char → Option (List JsVal × List Char)
  | 0, _ => none
  | fuel + 1, input =>
    match jsonParseVal fuel input with
    | some (v, r1) =>
      match skipWs r1 with
      | [] => none
      | c :: r2 =>
        if c = ',' then
          match jsonParseElems fuel r2 with
          | some (vs, r3) => some (v :: vs, r3)
          | none => none
        else if c = ']' then some ([v], r2)
        else none
    | none => none

end

/-- `JSON.parse` on a whole document: the raw webhook body bytes become the
`req.body` value handed to the route by the json body middleware. -/
def jsonParse (s : String) : Option JsVal :=
  match jsonParseVal (s.length + 1) s.data with
  | some (v, r) => if (skipWs r).isEmpty then some v else none
  | none => none

/-- Truthiness of a process.env entry (`!process.env.X` is true exactly when
the variable is unset or the empty string). -/
def envTruthy : Option String → Bool
  | none => false
  | some s => !s.isEmpty

/-- A header read from `req.headers[...]`: `undefined` concatenates into a
template / `+` expression as the literal string `undefined`. -/
def headerOrUndefined : Option String → String
  | some s => s
  | none => "undefined"

/-- The inbound webhook request: the four lowercased Twitch EventSub headers
and the body already parsed by the express json middleware. -/
structure WebhookReq where
  messageId : Option String
  timestamp : Option String
  signature : Option String
  messageType : Option String
  body : JsVal

/-- Embedding of `verifyTwitchSignature(req, secret)` from eventsub.js.
`hmacHex` is the external `crypto.createHmac('sha256', secret)` digest as a
lowercase hex string; the digest input is message id + timestamp +
`JSON.stringify(req.body)` (the re-serialized parsed body, not the raw
bytes on the wire). -/
def verifyTwitchSignature (hmacHex : String → String → String)
    (secret : String) (req : WebhookReq) : Bool :=
  let message := headerOrUndefined req.messageId ++ headerOrUndefined req.timestamp
      ++ jsonStringify req.body
  let signature := "sha256=" ++ hmacHex secret message
  match req.signature with
  | some s => signature == s
  | none => false

/-- The subscription-creation payload POSTed to the Twitch EventSub API. -/
structure SubPayload where
  type : String
  version : String
  condition : List (String × String)
  callback : String
  secret : String
deriving DecidableEq

/-- An observable side effect of the embedded code: console output,
Socket.IO emission, a remote subscription-creation request, a local
subscription status transition, or a database write.  The status-transition
constructor exists so that its absence from every produced effect list can
be stated; no code path of the repository emits it. -/
inductive Effect where
  | log (msg : String) : Effect
  | logWarn (msg : String) : Effect
  | logError (msg : String) : Effect
  | emit (channel : String) (payload : JsVal) : Effect
  | createSubscription (payload : SubPayload) : Effect
  | updateSubscriptionStatus (subType : String) (condition : List (String × String))
      (status : String) : Effect
  | dbSave (key : String) (value : String) : Effect

/-- Whether an effect is a Socket.IO emission to presentation clients. -/
def Effect.isEmit : Effect → Bool
  | .emit _ _ => true
  | _ => false

/-- Whether an effect is a remote subscription creation. -/
def Effect.isCreate : Effect → Bool
  | .createSubscription _ => true
  | _ => false

/-- Whether an effect is a local subscription status transition. -/
def Effect.isSubUpdate : Effect → Bool
  | .updateSubscriptionStatus _ _ _ => true
  | _ => false

/-- Number of remote subscription creations in an effect list. -/
def createCount (effs : List Effect) : Nat :=
  effs.countP (fun e => e.isCreate)

/-- Embedding of `handleFollowEvent(event, eventType)`: the Socket.IO
reference `_io` is the boolean `io` (set iff `setIO` was called), and an
emission happens only when it is set. -/
def handleFollowEvent (io : Bool) (event : JsVal) (_eventType : String) :
    Except JsError (List Effect) := do
  let userName := jsOr (← jsGet event "user_name") (← jsGet event "user_login")
  let logE := Effect.log ("New follower: " ++ jsDisplay userName)
  if io then
    let followedAt ← jsGet event "followed_at"
    pure [logE, Effect.emit "follow" (.obj [("username", userName), ("followedAt", followedAt)])]
  else
    pure [logE]

/-- Embedding of `handleSubscriptionEvent(event, eventType)` from
eventsub.js: the four locals start as `undefined` and are assigned per
event type; the emitted payload carries `months.toString()`. -/
def handleSubscriptionEvent (io : Bool) (event : JsVal) (eventType : String) :
    Except JsError (List Effect) := do
  let (username, months, tier, isGift) ←
    if eventType == "channel.subscribe" then do
      let username := jsOr (← jsGet event "user_name") (← jsGet event "user_login")
      let tier ← jsGet event "tier"
      pure (username, JsVal.num 1, tier, JsVal.bool false)
    else if eventType == "channel.subscription.gift" then do
      let anon ← jsGet event "is_anonymous"
      let username ←
        if jsTruthy anon then pure (JsVal.str "Anonymous")
        else do pure (jsOr (← jsGet event "user_name") (← jsGet event "user_login"))
      let tier ← jsGet event "tier"
      pure (username, JsVal.num 1, tier, JsVal.bool true)
    else if eventType == "channel.subscription.message" then do
      let username := jsOr (← jsGet event "user_name") (← jsGet event "user_login")
      let tier ← jsGet event "tier"
      let months := jsOr (← jsGet event "cumulative_months") (JsVal.num 1)
      pure (username, months, tier, JsVal.bool false)
    else
      pure (JsVal.undefined, JsVal.undefined, JsVal.undefined, JsVal.undefined)
  let logE := Effect.log ("Subscription event: " ++ jsDisplay username ++ ", Tier "
      ++ jsDisplay tier ++ ", " ++ jsDisplay months ++ " months, Gift: " ++ jsDisplay isGift)
  if io then
    let monthsStr ← jsToString months
    pure [logE, Effect.emit "subscription" (.obj [("username", username),
      ("months", .str monthsStr), ("tier", tier), ("isGift", isGift)])]
  else
    pure [logE]

/-- Embedding of `handleRaidEvent(event)`. -/
def handleRaidEvent (io : Bool) (event : JsVal) : Except JsError (List Effect) := do
  let fromLogin ← jsGet event "from_broadcaster_user_login"
  let fromName ← jsGet event "from_broadcaster_user_name"
  let viewers ← jsGet event "viewers"
  let logE := Effect.log ("Raid from " ++ jsDisplay fromName ++ " with "
      ++ jsDisplay viewers ++ " viewers")
  if io then
    pure [logE, Effect.emit "raid" (.obj [("username", jsOr fromName fromLogin),
      ("viewers", viewers)])]
  else
    pure [logE]

/-- Embedding of `handleCheerEvent(event)`. -/
def handleCheerEvent (io : Bool) (event : JsVal) : Except JsError (List Effect) := do
  let userName ← jsGet event "user_name"
  let userLogin ← jsGet event "user_login"
  let anon ← jsGet event "is_anonymous"
  let bits ← jsGet event "bits"
  let username := if jsTruthy anon then JsVal.str "Anonymous" else jsOr userName userLogin
  let logE := Effect.log ("Cheer from " ++ jsDisplay username ++ ": "
      ++ jsDisplay bits ++ " bits")
  if io then
    pure [logE, Effect.emit "cheer" (.obj [("username", username), ("bits", bits)])]
  else
    pure [logE]

/-- Embedding of `handleEventNotification(body)`: destructures subscription
and event, logs the type, and dispatches on `subscription.type`.  There is
no try/catch anywhere on this path, so a thrown TypeError propagates as
`Except.error`. -/
def handleEventNotification (io : Bool) (body : JsVal) : Except JsError (List Effect) := do
  let subscription ← jsGet body "subscription"
  let event ← jsGet body "event"
  let subType ← jsGet subscription "type"
  let logE := Effect.log ("Received event: " ++ jsDisplay subType)
  let rest ←
    if jsIsStr subType "channel.follow" then
      handleFollowEvent io event "channel.follow"
    else if jsIsStr subType "channel.subscribe" then
      handleSubscriptionEvent io event "channel.subscribe"
    else if jsIsStr subType "channel.subscription.gift" then
      handleSubscriptionEvent io event "channel.subscription.gift"
    else if jsIsStr subType "channel.subscription.message" then
      handleSubscriptionEvent io event "channel.subscription.message"
    else if jsIsStr subType "channel.raid" then
      handleRaidEvent io event
    else if jsIsStr subType "channel.cheer" then
      handleCheerEvent io event
    else
      pure [Effect.log ("Event type \"" ++ jsDisplay subType ++ "\" not handled")]
  pure (logE :: rest)

/-- An HTTP response of the webhook route. -/
structure Resp where
  status : Nat
  body : String

/-- Embedding of the `router.post('/webhook/twitch', ...)` handler:
missing-secret check, signature verification, then the message-type switch.
A thrown error escapes as `Except.error` (the route has no try/catch). -/
def webhookRoute (hmacHex : String → String → String) (secretEnv : Option String)
    (io : Bool) (req : WebhookReq) : Except JsError (Resp × List Effect) := do
  if !(envTruthy secretEnv) then
    pure ({ status := 500, body := "Webhook secret not configured" },
      [Effect.logError "TWITCH_WEBHOOK_SECRET not configured"])
  else if !(verifyTwitchSignature hmacHex (secretEnv.getD "") req) then
    pure ({ status := 403, body := "Invalid signature" },
      [Effect.logError "Invalid signature, possible forgery attempt"])
  else if req.messageType == some "webhook_callback_verification" then do
    let challenge ← jsGet req.body "challenge"
    pure ({ status := 200, body := jsDisplay challenge },
      [Effect.log "Received webhook verification challenge"])
  else if req.messageType == some "notification" then do
    let effs ← handleEventNotification io req.body
    pure ({ status := 204, body := "" }, effs)
  else if req.messageType == some "revocation" then do
    let sub ← jsGet req.body "subscription"
    let ty ← jsGet sub "type"
    let st ← jsGet sub "status"
    let sid ← jsGet sub "id"
    pure ({ status := 204, body := "" },
      [Effect.log ("Subscription revoked: " ++ jsDisplay ty ++ " Reason: "
        ++ jsDisplay st ++ " ID: " ++ jsDisplay sid)])
  else
    pure ({ status := 204, body := "" },
      [Effect.logWarn ("Unknown message type: " ++ headerOrUndefined req.messageType)])

/-- The response actually sent for one delivery: express catches a
synchronous throw from the route handler and answers with its default
error status instead of the handler's response. -/
def webhookRespond (hmacHex : String → String → String) (secretEnv : Option String)
    (io : Bool) (req : WebhookReq) : Resp × List Effect :=
  match webhookRoute hmacHex secretEnv io req with
  | .ok r => r
  | .error _ => ({ status := 500, body := "Internal Server Error" }, [])

/-- The environment configuration consumed by the registrar functions. -/
structure Config where
  appAccessToken : Option String
  clientId : Option String
  webhookSecret : Option String
  publicUrl : Option String

/-- Outcome of one axios POST to the create-subscription endpoint:
success with response data, or a rejection carrying the HTTP response
status when the server answered (`error.response?.status`) and the
reported error data / message. -/
inductive PostOutcome where
  | ok (data : JsVal) : PostOutcome
  | err (responseStatus : Option Nat) (errData : String) : PostOutcome

/-- Truthiness of `error.response?.status` in the follow-retry guard. -/
def respStatusTruthy : Option Nat → Bool
  | none => false
  | some s => s != 0

/-- Result shape of `registerSubscription`. -/
structure RegResult where
  success : Bool
  errMsg : Option String
  details : Option String
  data : Option JsVal

/-- The JSON value of a subscription payload, as serialized into the
`Registering subscription for ...` log line (it includes the transport
secret verbatim). -/
def subPayloadJson (p : SubPayload) : JsVal :=
  .obj [("type", .str p.type), ("version", .str p.version),
    ("condition", .obj (p.condition.map (fun kv => (kv.1, JsVal.str kv.2)))),
    ("transport", .obj [("method", .str "webhook"), ("callback", .str p.callback),
      ("secret", .str p.secret)])]

/-- Embedding of `registerSubscription(type, userId)` from eventsub.js.
The remote API is the parameter `post`; each attempted creation leaves a
`createSubscription` effect.  On a creation failure for `channel.follow`
whose error carries a truthy response status, the version-2 retry runs with
both broadcaster and moderator subject ids set to `userId`. -/
def registerSubscription (cfg : Config) (post : SubPayload → PostOutcome)
    (type userId : String) : RegResult × List Effect :=
  if !(envTruthy cfg.appAccessToken) || !(envTruthy cfg.clientId)
      || !(envTruthy cfg.webhookSecret) || !(envTruthy cfg.publicUrl) then
    ({ success := false, errMsg := some "Missing required configuration",
       details := none, data := none }, [])
  else
    let condition :=
      if type == "channel.follow" then [("broadcaster_user_id", userId)]
      else if type == "channel.raid" then [("to_broadcaster_user_id", userId)]
      else [("broadcaster_user_id", userId)]
    let callback := cfg.publicUrl.getD "" ++ "/webhook/twitch"
    let secret := cfg.webhookSecret.getD ""
    let payload : SubPayload :=
      { type := type, version := "1", condition := condition,
        callback := callback, secret := secret }
    let logReg := Effect.log ("Registering subscription for " ++ type ++ ": "
        ++ jsonStringify (subPayloadJson payload))
    match post payload with
    | .ok data =>
      ({ success := true, errMsg := none, details := none, data := some data },
        [logReg, Effect.createSubscription payload,
         Effect.log ("Successfully registered " ++ type ++ " subscription")])
    | .err st errData =>
      let logErr := Effect.logError ("Error registering " ++ type
          ++ " subscription: " ++ errData)
      if type == "channel.follow" && respStatusTruthy st then
        let payload2 : SubPayload :=
          { type := type, version := "2",
            condition := [("broadcaster_user_id", userId), ("moderator_user_id", userId)],
            callback := callback, secret := secret }
        match post payload2 with
        | .ok data =>
          ({ success := true, errMsg := none, details := none, data := some data },
            [logReg, Effect.createSubscription payload, logErr,
             Effect.log "Trying channel.follow with version 2",
             Effect.createSubscription payload2,
             Effect.log "Successfully registered channel.follow v2 subscription"])
        | .err _ errData2 =>
          ({ success := false, errMsg := some errData2,
             details := some "Both v1 and v2 failed for channel.follow", data := none },
            [logReg, Effect.createSubscription payload, logErr,
             Effect.log "Trying channel.follow with version 2",
             Effect.createSubscription payload2])
      else
        ({ success := false, errMsg := some errData, details := none, data := none },
          [logReg, Effect.createSubscription payload, logErr])

/-- A subscription as returned by the remote list endpoint. -/
structure RemoteSub where
  type : String
  condition : List (String × String)
deriving DecidableEq

/-- Outcome of the axios GET that lists current subscriptions. -/
inductive ListOutcome where
  | ok (subs : List RemoteSub) : ListOutcome
  | err (errData : String) : ListOutcome

/-- Result shape of `setupFollowSubscription`. -/
structure SetupResult where
  success : Bool
  message : Option String
  errMsg : Option String
  v1Error : Option String
  v2Error : Option String

/-- Lookup of `sub.condition.broadcaster_user_id`. -/
def condLookup : List (String × String) → String → Option String
  | [], _ => none
  | (k, v) :: rest, key => if k == key then some v else condLookup rest key

/-- Embedding of `setupFollowSubscription(userId)` from user-auth.js: config
checks, then a best-effort list of existing subscriptions (a failed list is
only logged), an early `already set up` return when a follow subscription
for the broadcaster exists, otherwise a version-1 creation with an
unconditional version-2 retry on failure. -/
def setupFollowSubscription (cfg : Config) (listSubs : ListOutcome)
    (post : SubPayload → PostOutcome) (userId : String) : SetupResult × List Effect :=
  if !(envTruthy cfg.appAccessToken) then
    ({ success := false, message := none, errMsg := some "No app access token available",
       v1Error := none, v2Error := none }, [])
  else if !(envTruthy cfg.clientId) || !(envTruthy cfg.webhookSecret)
      || !(envTruthy cfg.publicUrl) then
    ({ success := false, message := none, errMsg := some "Missing required configuration",
       v1Error := none, v2Error := none }, [])
  else if userId.isEmpty then
    ({ success := false, message := none, errMsg := some "No broadcaster ID provided",
       v1Error := none, v2Error := none }, [])
  else
    let existing : Option RemoteSub :=
      match listSubs with
      | .ok subs => subs.find? (fun sub => sub.type == "channel.follow"
          && condLookup sub.condition "broadcaster_user_id" == some userId)
      | .err _ => none
    let listEffs : List Effect :=
      match listSubs with
      | .ok _ => []
      | .err e => [Effect.logError ("Error checking existing subscriptions: " ++ e)]
    match existing with
    | some _ =>
      ({ success := true, message := some "Follow events were already set up",
         errMsg := none, v1Error := none, v2Error := none }, listEffs)
    | none =>
      let callback := cfg.publicUrl.getD "" ++ "/webhook/twitch"
      let secret := cfg.webhookSecret.getD ""
      let payloadV1 : SubPayload :=
        { type := "channel.follow", version := "1",
          condition := [("broadcaster_user_id", userId)],
          callback := callback, secret := secret }
      match post payloadV1 with
      | .ok _ =>
        ({ success := true, message := none, errMsg := none,
           v1Error := none, v2Error := none },
          listEffs ++ [Effect.createSubscription payloadV1])
      | .err _ e1 =>
        let payloadV2 : SubPayload :=
          { type := "channel.follow", version := "2",
            condition := [("broadcaster_user_id", userId), ("moderator_user_id", userId)],
            callback := callback, secret := secret }
        match post payloadV2 with
        | .ok _ =>
          ({ success := true, message := none, errMsg := none,
             v1Error := none, v2Error := none },
            listEffs ++ [Effect.createSubscription payloadV1,
              Effect.createSubscription payloadV2])
        | .err _ e2 =>
          ({ success := false, message := none,
             errMsg := some "Could not set up follow events",
             v1Error := some e1, v2Error := some e2 },
            listEffs ++ [Effect.createSubscription payloadV1,
              Effect.createSubscription payloadV2])

/-- Model of the remote EventSub service state: every creation request the
program sends registers one remote subscription (the create endpoint is not
idempotent, per the protocol). Applying an effect list replays the
creations the program issued against the remote state. -/
def applyEffects (remote : List RemoteSub) (effs : List Effect) : List RemoteSub :=
  effs.foldl (fun acc e =>
    match e with
    | .createSubscription p => acc ++ [{ type := p.type, condition := p.condition }]
    | _ => acc) remote

/-- The process.env slots of the user credential tier. -/
structure UserEnv where
  userToken : Option String
  userRefreshToken : Option String

/-- Outcome of the refresh-token exchange with the identity provider. -/
inductive ExchangeOutcome where
  | ok (accessToken : String) (refreshToken : Option String) : ExchangeOutcome
  | err (errData : String) : ExchangeOutcome

/-- Embedding of `refreshUserToken()` from user-auth.js.  The identity
provider outcome is the parameter `exchange`; `dbOk1`/`dbOk2` say whether
the two `db.saveToken` calls succeed (a failing save throws into the inner
catch, which only logs).  Returns the function's return value, the updated
process.env slots, and the effects. -/
def refreshUserToken (env : UserEnv) (exchange : ExchangeOutcome)
    (dbOk1 dbOk2 : Bool) : Option String × UserEnv × List Effect :=
  if !(envTruthy env.userRefreshToken) then
    (none, env, [Effect.log "No refresh token available"])
  else
    match exchange with
    | .err e => (none, env, [Effect.logError ("Error refreshing token: " ++ e)])
    | .ok accessTok refreshTok =>
      let env1 : UserEnv :=
        { userToken := some accessTok,
          userRefreshToken := if envTruthy refreshTok then refreshTok
            else env.userRefreshToken }
      let dbEffs : List Effect :=
        if dbOk1 then
          Effect.dbSave "TWITCH_USER_TOKEN" accessTok ::
            (if envTruthy refreshTok then
              (if dbOk2 then
                [Effect.dbSave "TWITCH_USER_REFRESH_TOKEN" (refreshTok.getD ""),
                 Effect.log "Refreshed tokens saved to database"]
              else [Effect.logError "Error saving refreshed tokens to database"])
            else [Effect.log "Refreshed tokens saved to database"])
        else [Effect.logError "Error saving refreshed tokens to database"]
      (some accessTok, env1, dbEffs)

/-- Whether a list starts with the given character sequence. -/
def listStartsWith : List Char → List Char → Bool
  | _, [] => true
  | [], _ :: _ => false
  | c :: cs, d :: ds => c == d && listStartsWith cs ds

/-- Whether a list contains the given character sequence. -/
def listContainsSeq : List Char → List Char → Bool
  | [], needle => needle.isEmpty
  | c :: cs, needle => listStartsWith (c :: cs) needle || listContainsSeq cs needle

/-- Whether `needle` occurs as a contiguous substring of `hay`. -/
def strContains (hay needle : String) : Bool :=
  listContainsSeq hay.data needle.data

/-- A concrete stand-in for the external HMAC-SHA256 hex digest, used in the
closed counterexamples: like the real primitive it yields different digests
for the different digest inputs that appear in them. -/
def hmacConcat (secret message : String) : String :=
  secret ++ "#" ++ message

/-- Whether a notification-handling outcome completed without throwing and
emitted nothing to presentation clients. -/
def emitless : Except JsError (List Effect) → Bool
  | .ok effs => effs.all (fun e => !e.isEmit)
  | .error _ => false

/-- The payload emitted on a Socket.IO channel by a handling outcome, when
one was emitted. -/
def emittedPayload (r : Except JsError (List Effect)) (channel : String) : Option JsVal :=
  match r with
  | .ok effs => effs.findSome? fun e =>
      match e with
      | .emit c p => if c == channel then some p else none
      | _ => none
  | .error _ => none

/-- Shared fixture: a fully populated registrar configuration. -/
def cfgFull : Config :=
  { appAccessToken := some "app-token"
    clientId := some "client-id"
    webhookSecret := some "wh-secret-s3cr3t-0123456789abcdef"
    publicUrl := some "https://bot.example.com" }

/-- Shared fixture: a remote create endpoint that accepts every request. -/
def postAlwaysOk : SubPayload → PostOutcome := fun _ => .ok (.obj [])

/-- Fixture: the raw webhook body bytes as sent (non-canonical: one space
after the colon, exactly as a sender may legitimately serialize). -/
def rawBodyC1 : String := "\x7b\"a\": 1\x7d"

/-- Fixture: `JSON.parse` of `rawBodyC1`, the value express's json
middleware hands to the route as `req.body`. -/
def parsedBodyC1 : JsVal := .obj [("a", .num 1)]

/-- Fixture: a delivery carrying the signature correctly computed over the
exact raw body bytes (message id + timestamp + raw bytes), as the claim
and the upstream protocol prescribe. -/
def reqC1 : WebhookReq :=
  { messageId := some "id1"
    timestamp := some "ts1"
    signature := some ("sha256=" ++ hmacConcat "sec" ("id1" ++ "ts1" ++ rawBodyC1))
    messageType := some "notification"
    body := parsedBodyC1 }

/-- Fixture: an authentic notification delivery whose body lacks the
`subscription` field, so `handleEventNotification` throws a TypeError. -/
def reqC3 : WebhookReq :=
  { messageId := some "id1"
    timestamp := some "ts1"
    signature := some ("sha256=" ++ hmacConcat "sec"
      ("id1" ++ "ts1" ++ jsonStringify (JsVal.obj [])))
    messageType := some "notification"
    body := .obj [] }

/-- Fixture: the subscription descriptor of a revocation delivery. -/
def revokedSubC4 : JsVal :=
  .obj [("type", .str "channel.raid"), ("status", .str "authorization_revoked"),
    ("id", .str "sub1")]

/-- Fixture: an authentic revocation delivery for a raid subscription. -/
def reqC4 : WebhookReq :=
  { messageId := some "id1"
    timestamp := some "ts1"
    signature := some ("sha256=" ++ hmacConcat "sec"
      ("id1" ++ "ts1" ++ jsonStringify (JsVal.obj [("subscription", revokedSubC4)])))
    messageType := some "revocation"
    body := .obj [("subscription", revokedSubC4)] }

/-- Fixture: a representative channel.subscribe event payload. -/
def evSubC5 : JsVal :=
  .obj [("user_name", .str "Alice"), ("user_login", .str "alice"), ("tier", .str "1000")]

/-- Fixture: an event payload carrying every field the subscription-family
handler reads (used to instantiate the universal payload theorems). -/
def evAllFields : JsVal :=
  .obj [("user_name", .str "Ann"), ("user_login", .str "ann"), ("tier", .str "2000"),
    ("is_anonymous", .bool true), ("cumulative_months", .num 7)]

/-- Fixture: an authentic follow notification body. -/
def followBody : JsVal :=
  .obj [("subscription", .obj [("type", .str "channel.follow")]),
    ("event", .obj [("user_name", .str "Fan"), ("user_login", .str "fan"),
      ("followed_at", .str "2025-01-01T00:00:00Z")])]

/-- Fixture: an authentic follow notification delivery. -/
def reqFollow : WebhookReq :=
  { messageId := some "id2"
    timestamp := some "ts2"
    signature := some ("sha256=" ++ hmacConcat "sec"
      ("id2" ++ "ts2" ++ jsonStringify followBody))
    messageType := some "notification"
    body := followBody }

/-- The six event types the dispatcher handles. -/
def sixEventTypes : List String :=
  ["channel.follow", "channel.subscribe", "channel.subscription.gift",
   "channel.subscription.message", "channel.raid", "channel.cheer"]

/-- Fixture: the webhook secret of `cfgFull`, spelled out. -/
def secretC8 : String := "wh-secret-s3cr3t-0123456789abcdef"

/-- Fixture: a remote create endpoint that fails without an HTTP response
(a network-level error, so `error.response` is undefined). -/
def postNetErr : SubPayload → PostOutcome := fun _ => .err none "Network Error"

/-- Reduction of bind on a successful `Except`. -/
@[simp]
theorem exceptBind_ok {ε α β : Type} (a : α) (f : α → Except ε β) :
    (Except.ok a >>= f : Except ε β) = f a := rfl

/-- Reduction of bind on a failed `Except`. -/
@[simp]
theorem exceptBind_error {ε α β : Type} (e : ε) (f : α → Except ε β) :
    (Except.error e >>= f : Except ε β) = Except.error e := rfl

/-- Reduction of pure on `Except`. -/
@[simp]
theorem exceptPure_eq {ε α : Type} (a : α) :
    (pure a : Except ε α) = Except.ok a := rfl

/-- Unfolding of property access on an object value. -/
@[simp]
theorem jsGet_obj (fs : List (String × JsVal)) (k : String) :
    jsGet (JsVal.obj fs) k = .ok ((jsLookup fs k).getD .undefined) := rfl

/-- C1 (code evaluated at the failing input): the verifier digests the
re-serialized parsed body, not the raw bytes.  For the raw body with one
space, `JSON.parse` yields the object whose `JSON.stringify` differs from
the raw bytes, so the signature correctly computed over the exact raw
body bytes — which the claim says is accepted — is rejected. -/
theorem verify_rejects_raw_byte_signature :
    jsonParse rawBodyC1 = some parsedBodyC1 ∧
    jsonStringify parsedBodyC1 ≠ rawBodyC1 ∧
    verifyTwitchSignature hmacConcat "sec" reqC1 = false := by
  refine ⟨rfl, by decide, rfl⟩

/-- C2 counterexample: `registerSubscription` performs no existence check,
so two sequential calls for the same (type, subject id) both issue a remote
creation — the second one succeeds as a fresh creation instead of
reporting already-present, and the remote ends up with two subscriptions. -/
theorem registerSubscription_twice_creates_twice :
    createCount (registerSubscription cfgFull postAlwaysOk "channel.raid" "42").2 = 1 ∧
    (registerSubscription cfgFull postAlwaysOk "channel.raid" "42").1.success = true ∧
    (applyEffects
      (applyEffects [] (registerSubscription cfgFull postAlwaysOk "channel.raid" "42").2)
      (registerSubscription cfgFull postAlwaysOk "channel.raid" "42").2).length = 2 := by
  refine ⟨rfl, rfl, rfl⟩

/-- C3 counterexample: an authentic notification delivery whose handling
throws (body without a `subscription` field) is answered with the express
error status, not the no-content acknowledgment — internal failures are
not swallowed. -/
theorem notification_throw_becomes_error_response :
    verifyTwitchSignature hmacConcat "sec" reqC3 = true ∧
    webhookRoute hmacConcat (some "sec") true reqC3 =
      .error (.typeError "Cannot read properties of undefined (reading type)") ∧
    (webhookRespond hmacConcat (some "sec") true reqC3).1.status = 500 := by
  refine ⟨rfl, rfl, rfl⟩

/-- C4 counterexample: handling an authentic revocation delivery only logs
and acknowledges; no subscription status transition to `revoked` happens
(the effect list contains no status update at all). -/
theorem revocation_performs_no_transition :
    verifyTwitchSignature hmacConcat "sec" reqC4 = true ∧
    webhookRoute hmacConcat (some "sec") true reqC4 =
      .ok ({ status := 204, body := "" },
        [Effect.log "Subscription revoked: channel.raid Reason: authorization_revoked ID: sub1"]) ∧
    (Effect.log "Subscription revoked: channel.raid Reason: authorization_revoked ID: sub1").isSubUpdate
      = false := by
  refine ⟨rfl, rfl, rfl⟩

/-- C5 counterexample: for a representative subscribe event with the
numeric tier code 1000, the published payload forwards the raw code and
contains no `tierLabel` key at all, so the claimed attribute
tierLabel = "Tier 1" does not exist. -/
theorem subscribe_payload_has_no_tier_label :
    handleSubscriptionEvent true evSubC5 "channel.subscribe" =
      .ok [Effect.log "Subscription event: Alice, Tier 1000, 1 months, Gift: false",
        Effect.emit "subscription" (.obj [("username", .str "Alice"),
          ("months", .str "1"), ("tier", .str "1000"), ("isGift", .bool false)])] ∧
    jsLookup [("username", JsVal.str "Alice"), ("months", .str "1"),
      ("tier", .str "1000"), ("isGift", .bool false)] "tierLabel" = none := by
  refine ⟨rfl, rfl⟩

/-- C6 counterexample: a creation failure for `channel.follow` that carries
no HTTP response status (a network-level error) is terminal — no
version-2 retry is attempted, contradicting the claim that every failed
follow creation is retried once with the fallback version. -/
theorem follow_network_error_not_retried :
    createCount (registerSubscription cfgFull postNetErr "channel.follow" "42").2 = 1 ∧
    (registerSubscription cfgFull postNetErr "channel.follow" "42").1.success = false ∧
    (registerSubscription cfgFull postNetErr "channel.follow" "42").1.details = none := by
  refine ⟨rfl, rfl, rfl⟩

/-- C8 (code evaluated at the failing input): the registration log line
serializes the whole subscription payload, transport secret included, so
the full stored webhook secret appears in diagnostic log output. -/
theorem register_log_contains_full_secret :
    (registerSubscription cfgFull postAlwaysOk "channel.raid" "42").2.any
      (fun e => match e with
        | Effect.log m => strContains m secretC8
        | _ => false) = true := by
  rfl

/-- C2 (amended): only the follow registrar `setupFollowSubscription` lists
existing remote subscriptions first; when none matches it creates exactly
one, and a second sequential call — listing the remote state left by the
first — returns the already-set-up success without issuing any creation. -/
theorem setupFollowSubscription_check_then_create (cfg : Config) (uid : String)
    (h1 : envTruthy cfg.appAccessToken = true) (h2 : envTruthy cfg.clientId = true)
    (h3 : envTruthy cfg.webhookSecret = true) (h4 : envTruthy cfg.publicUrl = true)
    (h5 : uid.isEmpty = false) :
    (setupFollowSubscription cfg (.ok []) postAlwaysOk uid).1.success = true ∧
    (setupFollowSubscription cfg (.ok []) postAlwaysOk uid).1.message = none ∧
    createCount (setupFollowSubscription cfg (.ok []) postAlwaysOk uid).2 = 1 ∧
    (setupFollowSubscription cfg
      (.ok (applyEffects [] (setupFollowSubscription cfg (.ok []) postAlwaysOk uid).2))
      postAlwaysOk uid).1.success = true ∧
    (setupFollowSubscription cfg
      (.ok (applyEffects [] (setupFollowSubscription cfg (.ok []) postAlwaysOk uid).2))
      postAlwaysOk uid).1.message = some "Follow events were already set up" ∧
    createCount (setupFollowSubscription cfg
      (.ok (applyEffects [] (setupFollowSubscription cfg (.ok []) postAlwaysOk uid).2))
      postAlwaysOk uid).2 = 0 := by
  simp [setupFollowSubscription, h1, h2, h3, h4, h5, postAlwaysOk, applyEffects,
    createCount, condLookup, List.find?, Effect.isCreate]

/-- Witness for the amended C2 theorem at a concrete configuration. -/
theorem setupFollowSubscription_check_then_create_witness :
    envTruthy cfgFull.appAccessToken = true ∧
    envTruthy cfgFull.clientId = true ∧
    envTruthy cfgFull.webhookSecret = true ∧
    envTruthy cfgFull.publicUrl = true ∧
    ("42").isEmpty = false ∧
    createCount (setupFollowSubscription cfgFull (.ok []) postAlwaysOk "42").2 = 1 ∧
    (setupFollowSubscription cfgFull
      (.ok (applyEffects [] (setupFollowSubscription cfgFull (.ok []) postAlwaysOk "42").2))
      postAlwaysOk "42").1.message = some "Follow events were already set up" :=
  ⟨rfl, rfl, rfl, rfl, rfl,
    (setupFollowSubscription_check_then_create cfgFull "42" rfl rfl rfl rfl rfl).2.2.1,
    (setupFollowSubscription_check_then_create cfgFull "42" rfl rfl rfl rfl rfl).2.2.2.2.1⟩

/-- C3 (amended): for an authentic notification delivery the route's answer
is exactly the handler's outcome — the no-content acknowledgment when
`handleEventNotification` completes, and the propagated exception (hence an
error response, not a 204) when it throws; nothing is swallowed. -/
theorem notification_ack_matches_handler_outcome (hmacHex : String → String → String)
    (secretEnv : Option String) (io : Bool) (req : WebhookReq)
    (h1 : envTruthy secretEnv = true)
    (h2 : verifyTwitchSignature hmacHex (secretEnv.getD "") req = true)
    (h3 : req.messageType = some "notification") :
    webhookRoute hmacHex secretEnv io req =
      Except.map (fun effs => ({ status := 204, body := "" }, effs))
        (handleEventNotification io req.body) := by
  unfold webhookRoute
  rw [h1, h2, h3]
  cases hE : handleEventNotification io req.body <;> simp [Except.map]

/-- Witness for the amended C3 theorem at an authentic follow delivery. -/
theorem notification_ack_matches_handler_outcome_witness :
    envTruthy (some "sec") = true ∧
    verifyTwitchSignature hmacConcat ((some "sec").getD "") reqFollow = true ∧
    reqFollow.messageType = some "notification" ∧
    webhookRoute hmacConcat (some "sec") true reqFollow =
      Except.map (fun effs => ({ status := 204, body := "" }, effs))
        (handleEventNotification true reqFollow.body) :=
  ⟨rfl, rfl, rfl,
    notification_ack_matches_handler_outcome hmacConcat (some "sec") true reqFollow
      rfl rfl rfl⟩

/-- C4 (amended): an authentic revocation delivery is acknowledged with the
no-content status and produces exactly one log effect — no subscription
status transition, no creation, no emission, no persistence; since the
handler reads no mutable state, repeating the delivery repeats the same
acknowledgment and the same non-mutating effect. -/
theorem revocation_ack_and_log_only (hmacHex : String → String → String)
    (secretEnv : Option String) (io : Bool) (req : WebhookReq) (sub ty st sid : JsVal)
    (h1 : envTruthy secretEnv = true)
    (h2 : verifyTwitchSignature hmacHex (secretEnv.getD "") req = true)
    (h3 : req.messageType = some "revocation")
    (h4 : jsGet req.body "subscription" = .ok sub)
    (h5 : jsGet sub "type" = .ok ty)
    (h6 : jsGet sub "status" = .ok st)
    (h7 : jsGet sub "id" = .ok sid) :
    webhookRoute hmacHex secretEnv io req =
      .ok ({ status := 204, body := "" },
        [Effect.log ("Subscription revoked: " ++ jsDisplay ty ++ " Reason: "
          ++ jsDisplay st ++ " ID: " ++ jsDisplay sid)]) ∧
    ([Effect.log ("Subscription revoked: " ++ jsDisplay ty ++ " Reason: "
      ++ jsDisplay st ++ " ID: " ++ jsDisplay sid)].all
        (fun e => !(e.isSubUpdate || e.isCreate || e.isEmit))) = true := by
  constructor
  · unfold webhookRoute
    rw [h1, h2, h3]
    simp [h4, h5, h6, h7]
  · rfl

/-- Witness for the amended C4 theorem at the concrete revocation fixture. -/
theorem revocation_ack_and_log_only_witness :
    envTruthy (some "sec") = true ∧
    verifyTwitchSignature hmacConcat ((some "sec").getD "") reqC4 = true ∧
    reqC4.messageType = some "revocation" ∧
    webhookRoute hmacConcat (some "sec") true reqC4 =
      .ok ({ status := 204, body := "" },
        [Effect.log ("Subscription revoked: " ++ jsDisplay (JsVal.str "channel.raid")
          ++ " Reason: " ++ jsDisplay (JsVal.str "authorization_revoked")
          ++ " ID: " ++ jsDisplay (JsVal.str "sub1"))]) :=
  ⟨rfl, rfl, rfl,
    (revocation_ack_and_log_only hmacConcat (some "sec") true reqC4 revokedSubC4
      (.str "channel.raid") (.str "authorization_revoked") (.str "sub1")
      rfl rfl rfl rfl rfl rfl rfl).1⟩

/-- C5 (amended): the normalizer's actor is the display name falling back
to the login handle (`Anonymous` for an anonymous gift), the published
attributes are months = the string "1", the tier code forwarded unchanged,
and the gift flag false for subscribe / true for gift; no `tierLabel`
attribute exists in the published payload. -/
theorem subscription_actor_and_flags (ev un ul tv an : JsVal)
    (hn : jsGet ev "user_name" = .ok un) (hl : jsGet ev "user_login" = .ok ul)
    (ht : jsGet ev "tier" = .ok tv) (ha : jsGet ev "is_anonymous" = .ok an) :
    emittedPayload (handleSubscriptionEvent true ev "channel.subscribe") "subscription" =
      some (.obj [("username", jsOr un ul), ("months", .str "1"), ("tier", tv),
        ("isGift", .bool false)]) ∧
    (jsTruthy an = true →
      emittedPayload (handleSubscriptionEvent true ev "channel.subscription.gift")
          "subscription" =
        some (.obj [("username", .str "Anonymous"), ("months", .str "1"), ("tier", tv),
          ("isGift", .bool true)])) ∧
    jsLookup [("username", jsOr un ul), ("months", .str "1"), ("tier", tv),
      ("isGift", .bool false)] "tierLabel" = none := by
  have h1s : toString (1 : Int) = "1" := rfl
  refine ⟨?_, ?_, rfl⟩
  · simp [handleSubscriptionEvent, hn, hl, ht, jsToString, jsDisplay, emittedPayload, h1s]
  · intro han
    simp [handleSubscriptionEvent, hn, hl, ht, ha, han, jsToString, jsDisplay,
      emittedPayload, h1s]

/-- Witness for the amended C5 theorem at a concrete event payload. -/
theorem subscription_actor_and_flags_witness :
    jsGet evAllFields "user_name" = .ok (.str "Ann") ∧
    jsGet evAllFields "is_anonymous" = .ok (.bool true) ∧
    emittedPayload (handleSubscriptionEvent true evAllFields "channel.subscribe")
        "subscription" =
      some (.obj [("username", jsOr (.str "Ann") (.str "ann")), ("months", .str "1"),
        ("tier", .str "2000"), ("isGift", .bool false)]) ∧
    emittedPayload (handleSubscriptionEvent true evAllFields "channel.subscription.gift")
        "subscription" =
      some (.obj [("username", .str "Anonymous"), ("months", .str "1"),
        ("tier", .str "2000"), ("isGift", .bool true)]) :=
  ⟨rfl, rfl,
    (subscription_actor_and_flags evAllFields (.str "Ann") (.str "ann") (.str "2000")
      (.bool true) rfl rfl rfl rfl).1,
    (subscription_actor_and_flags evAllFields (.str "Ann") (.str "ann") (.str "2000")
      (.bool true) rfl rfl rfl rfl).2.1 rfl⟩

/-- C6 (amended): a failed version-1 creation for `channel.follow` is
retried exactly once with version 2 and the condition carrying both the
broadcaster and the moderator subject id set to the requested id — but
only when the failure carries an HTTP response status; a follow failure
without a response status, and a failure for any other type, is terminal
with no second creation attempt. -/
theorem registerSubscription_retry_policy (cfg : Config) (uid e1 : String) (s : Nat)
    (d2 : JsVal)
    (h1 : envTruthy cfg.appAccessToken = true) (h2 : envTruthy cfg.clientId = true)
    (h3 : envTruthy cfg.webhookSecret = true) (h4 : envTruthy cfg.publicUrl = true)
    (hs : (s != 0) = true) :
    ((registerSubscription cfg
        (fun p => if p.version == "1" then .err (some s) e1 else .ok d2)
        "channel.follow" uid).1.success = true ∧
      createCount (registerSubscription cfg
        (fun p => if p.version == "1" then .err (some s) e1 else .ok d2)
        "channel.follow" uid).2 = 2 ∧
      Effect.createSubscription
        { type := "channel.follow", version := "2",
          condition := [("broadcaster_user_id", uid), ("moderator_user_id", uid)],
          callback := cfg.publicUrl.getD "" ++ "/webhook/twitch",
          secret := cfg.webhookSecret.getD "" } ∈
        (registerSubscription cfg
          (fun p => if p.version == "1" then .err (some s) e1 else .ok d2)
          "channel.follow" uid).2) ∧
    ((registerSubscription cfg (fun _ => .err none e1) "channel.follow" uid).1.success
        = false ∧
      createCount (registerSubscription cfg (fun _ => .err none e1)
        "channel.follow" uid).2 = 1) ∧
    (∀ ty, ty ≠ "channel.follow" →
      (registerSubscription cfg (fun _ => .err (some s) e1) ty uid).1.success = false ∧
      createCount (registerSubscription cfg (fun _ => .err (some s) e1) ty uid).2 = 1) := by
  refine ⟨?_, ?_, ?_⟩
  · simp [registerSubscription, h1, h2, h3, h4, hs, respStatusTruthy, createCount,
      Effect.isCreate]
  · simp [registerSubscription, h1, h2, h3, h4, respStatusTruthy, createCount,
      Effect.isCreate]
  · intro ty hty
    simp [registerSubscription, h1, h2, h3, h4, hty, respStatusTruthy, createCount,
      Effect.isCreate]

/-- Witness for the amended C6 theorem at a concrete configuration. -/
theorem registerSubscription_retry_policy_witness :
    envTruthy cfgFull.appAccessToken = true ∧
    ((403 : Nat) != 0) = true ∧
    createCount (registerSubscription cfgFull
      (fun p => if p.version == "1" then .err (some 403) "forbidden" else .ok (.obj []))
      "channel.follow" "42").2 = 2 :=
  ⟨rfl, rfl,
    (registerSubscription_retry_policy cfgFull "42" "forbidden" 403 (.obj [])
      rfl rfl rfl rfl rfl).1.2.1⟩

/-- C7 (confirmed): with a stored refresh value a successful exchange
replaces the cached access value and persists it; a failed exchange leaves
the environment untouched and returns null; without a refresh value the
call is a logged no-op returning null with no state change and no error. -/
theorem refreshUserToken_spec (env env0 : UserEnv) (accessTok e : String)
    (refreshTok : Option String)
    (hr : envTruthy env.userRefreshToken = true)
    (h0 : envTruthy env0.userRefreshToken = false) :
    ((refreshUserToken env (.ok accessTok refreshTok) true true).1 = some accessTok ∧
      (refreshUserToken env (.ok accessTok refreshTok) true true).2.1.userToken
        = some accessTok ∧
      Effect.dbSave "TWITCH_USER_TOKEN" accessTok ∈
        (refreshUserToken env (.ok accessTok refreshTok) true true).2.2) ∧
    (refreshUserToken env (.err e) true true = (none, env,
      [Effect.logError ("Error refreshing token: " ++ e)])) ∧
    (∀ ex d1 d2, refreshUserToken env0 ex d1 d2 =
      (none, env0, [Effect.log "No refresh token available"])) := by
  refine ⟨?_, ?_, ?_⟩
  · cases hrt : envTruthy refreshTok <;> simp [refreshUserToken, hr, hrt]
  · simp [refreshUserToken, hr]
  · intro ex d1 d2
    simp [refreshUserToken, h0]

/-- Witness for the C7 theorem at concrete environments. -/
theorem refreshUserToken_spec_witness :
    envTruthy (some "refresh-1") = true ∧
    envTruthy (none : Option String) = false ∧
    (refreshUserToken { userToken := some "old-token", userRefreshToken := some "refresh-1" }
      (.ok "new-token" (some "refresh-2")) true true).2.1.userToken = some "new-token" ∧
    refreshUserToken { userToken := some "old-token", userRefreshToken := none }
      (.ok "new-token" none) true true =
      (none, { userToken := some "old-token", userRefreshToken := none },
        [Effect.log "No refresh token available"]) :=
  ⟨rfl, rfl,
    (refreshUserToken_spec
      { userToken := some "old-token", userRefreshToken := some "refresh-1" }
      { userToken := some "old-token", userRefreshToken := none }
      "new-token" "invalid_grant" (some "refresh-2") rfl rfl).1.2.1,
    (refreshUserToken_spec
      { userToken := some "old-token", userRefreshToken := some "refresh-1" }
      { userToken := some "old-token", userRefreshToken := none }
      "new-token" "invalid_grant" (some "refresh-2") rfl rfl).2.2
      (.ok "new-token" none) true true⟩

/-- C9 (confirmed): with no Socket.IO instance set, handling an authentic
notification of any of the six handled event types (whose body carries a
subscription descriptor with that type and an object event payload)
completes without throwing and emits nothing to presentation clients. -/
theorem no_broadcast_without_io_instance (body sub : JsVal)
    (efs : List (String × JsVal)) (t : String)
    (h1 : jsGet body "subscription" = .ok sub)
    (h2 : jsGet body "event" = .ok (JsVal.obj efs))
    (h3 : jsGet sub "type" = .ok (.str t))
    (h4 : t ∈ sixEventTypes) :
    emitless (handleEventNotification false body) = true := by
  simp [sixEventTypes, List.mem_cons] at h4
  rcases h4 with rfl | rfl | rfl | rfl | rfl | rfl
  · simp only [handleEventNotification, h1, h2, h3, exceptBind_ok, jsIsStr]
    simp [handleFollowEvent, jsGet_obj, emitless, Effect.isEmit]
  · simp only [handleEventNotification, h1, h2, h3, exceptBind_ok, jsIsStr]
    simp [handleSubscriptionEvent, jsGet_obj, emitless, Effect.isEmit]
  · simp only [handleEventNotification, h1, h2, h3, exceptBind_ok, jsIsStr]
    cases hA : jsTruthy ((jsLookup efs "is_anonymous").getD JsVal.undefined) <;>
      simp [handleSubscriptionEvent, jsGet_obj, emitless, Effect.isEmit, hA]
  · simp only [handleEventNotification, h1, h2, h3, exceptBind_ok, jsIsStr]
    simp [handleSubscriptionEvent, jsGet_obj, emitless, Effect.isEmit]
  · simp only [handleEventNotification, h1, h2, h3, exceptBind_ok, jsIsStr]
    simp [handleRaidEvent, jsGet_obj, emitless, Effect.isEmit]
  · simp only [handleEventNotification, h1, h2, h3, exceptBind_ok, jsIsStr]
    simp [handleCheerEvent, jsGet_obj, emitless, Effect.isEmit]

/-- Witness for the C9 theorem at a concrete follow notification body. -/
theorem no_broadcast_without_io_instance_witness :
    ("channel.follow" ∈ sixEventTypes) ∧
    emitless (handleEventNotification false followBody) = true :=
  ⟨by simp [sixEventTypes],
    no_broadcast_without_io_instance followBody
      (.obj [("type", .str "channel.follow")])
      [("user_name", .str "Fan"), ("user_login", .str "fan"),
        ("followed_at", .str "2025-01-01T00:00:00Z")]
      "channel.follow" rfl rfl rfl (by simp [sixEventTypes])⟩

/-- C10 (confirmed): for the three subscription-family types the published
payload carries the month count as the decimal string produced by
`toString` (the string "1" for subscribe and gift, the cumulative count's
decimal representation for resubs), while the tier code is forwarded
verbatim from the event payload. -/
theorem months_emitted_as_decimal_string (ev un ul tv an : JsVal) (m : Int)
    (hn : jsGet ev "user_name" = .ok un) (hl : jsGet ev "user_login" = .ok ul)
    (ht : jsGet ev "tier" = .ok tv) (ha : jsGet ev "is_anonymous" = .ok an)
    (hm : jsGet ev "cumulative_months" = .ok (.num m)) (hm0 : (m != 0) = true) :
    emittedPayload (handleSubscriptionEvent true ev "channel.subscribe") "subscription" =
      some (.obj [("username", jsOr un ul), ("months", .str "1"), ("tier", tv),
        ("isGift", .bool false)]) ∧
    emittedPayload (handleSubscriptionEvent true ev "channel.subscription.message")
        "subscription" =
      some (.obj [("username", jsOr un ul), ("months", .str (toString m)), ("tier", tv),
        ("isGift", .bool false)]) ∧
    emittedPayload (handleSubscriptionEvent true ev "channel.subscription.gift")
        "subscription" =
      some (.obj [("username", if jsTruthy an then JsVal.str "Anonymous" else jsOr un ul),
        ("months", .str "1"), ("tier", tv), ("isGift", .bool true)]) := by
  have h1s : toString (1 : Int) = "1" := rfl
  refine ⟨?_, ?_, ?_⟩
  · simp [handleSubscriptionEvent, hn, hl, ht, jsToString, jsDisplay, emittedPayload, h1s]
  · have hmt : jsTruthy (JsVal.num m) = true := by simp [jsTruthy, hm0]
    simp [handleSubscriptionEvent, hn, hl, ht, hm, jsOr, hmt, jsToString, jsDisplay,
      emittedPayload]
  · cases han : jsTruthy an <;>
      simp [handleSubscriptionEvent, hn, hl, ht, ha, han, jsToString, jsDisplay,
        emittedPayload, h1s]

/-- Witness for the C10 theorem at a concrete resub event payload. -/
theorem months_emitted_as_decimal_string_witness :
    jsGet evAllFields "cumulative_months" = .ok (.num 7) ∧
    ((7 : Int) != 0) = true ∧
    emittedPayload (handleSubscriptionEvent true evAllFields "channel.subscription.message")
        "subscription" =
      some (.obj [("username", jsOr (.str "Ann") (.str "ann")),
        ("months", .str (toString (7 : Int))), ("tier", .str "2000"),
        ("isGift", .bool false)]) :=
  ⟨rfl, rfl,
    (months_emitted_as_decimal_string evAllFields (.str "Ann") (.str "ann") (.str "2000")
      (.bool true) 7 rfl rfl rfl rfl rfl rfl).2.1⟩

end StreamBot
